import Mathlib

/-!
Shallow embedding of the Fuel2go driver-assistant core
(`api/driver_assistant.py`, together with the collaborator entry points of
`api/places_client.py` and `api/routes_client.py` that it calls), and proofs
about its sampling, deduplication, emergency-summary and stop-planning
behavior.

Modeling conventions:
* Python floats are modeled as exact rationals (`ℚ`).
* Python dicts with optional keys are modeled as structures with `Option`
  fields; `d.get(k, v)` becomes `Option.getD`.
* Fallible Python code (raised exceptions) is modeled with `Except`.
* Network collaborators (`requests` calls) are modeled by passing their
  outcomes (`Except HttpError payload`) as explicit arguments.
* `DriverAssistant.calculate_distance` (haversine with Earth radius 6371,
  `driver_assistant.py` lines 38-57) applies transcendental functions; it is
  kept as an explicit function parameter `calculate_distance` throughout, and
  the theorems assume only properties (non-negativity) that the haversine
  formula guarantees on real numbers.
-/

namespace Fuel2go

/-- Python `int(x)` conversion: truncation toward zero, on the rational
model of floats. -/
def truncInt (q : ℚ) : ℤ := if 0 ≤ q then ⌊q⌋ else -⌊-q⌋

/-- Round to the nearest integer, ties to even: the rounding used by Python's
`"%.6f"` float formatting, modeled on exact rationals. -/
def roundHalfEven (q : ℚ) : ℤ :=
  let f := ⌊q⌋
  let r := q - f
  if r < 1/2 then f
  else if 1/2 < r then f + 1
  else if f % 2 = 0 then f else f + 1

/-- Left-pad a digit string with zeros to length `k`. -/
def padZeros (k : ℕ) (s : String) : String :=
  if s.length < k then String.mk (List.replicate (k - s.length) '0') ++ s else s

/-- `"%.6f"` fixed-point formatting of a non-negative rational. -/
def format6nn (q : ℚ) : String :=
  let m := (roundHalfEven (q * 1000000)).toNat
  toString (m / 1000000) ++ "." ++ padZeros 6 (toString (m % 1000000))

/-- Python `f"{q:.6f}"`: fixed-point formatting with six decimals (a negative
value keeps its sign even when it rounds to zero, as CPython does). -/
def format6 (q : ℚ) : String :=
  if q < 0 then "-" ++ format6nn (-q) else format6nn q

/-- A concrete coordinate pair (the values of `latitude`/`longitude` keys). -/
structure GeoPoint where
  latitude : ℚ
  longitude : ℚ
  deriving DecidableEq

/-- The `latLng` dict of a leg endpoint: either key may be missing. -/
structure LatLng where
  latitude : Option ℚ
  longitude : Option ℚ
  deriving DecidableEq

/-- One entry of `route["legs"]`; the nested
`leg.get("startLocation", {}).get("latLng", {})` chains are collapsed into the
two endpoint dicts. -/
structure Leg where
  startLocation : LatLng
  endLocation : LatLng
  deriving DecidableEq

/-- One entry of `route_response["routes"]`. `distanceMeters` and the
`duration` string (`"<seconds>s"`, read numerically) may be absent; the
defaults `0` / `"0s"` are applied where the source applies them. -/
structure RouteInfo where
  legs : List Leg
  distanceMeters : Option ℚ
  durationSeconds : Option ℚ
  deriving DecidableEq

/-- The route-provider response dict. `"routes" not in response` and
`response["routes"] == []` behave identically in the source, so both are
modeled as `routes = []`. -/
structure RouteResponse where
  routes : List RouteInfo
  deriving DecidableEq

/-- A failed HTTP call (`requests.exceptions.HTTPError` or another
`RequestException`), carrying an arbitrary discriminating code. -/
inductive HttpError
  | httpStatus (code : ℕ)
  | requestFailed (code : ℕ)
  deriving DecidableEq

/-- The exceptions that can escape the driver-assistant methods. -/
inductive PyError
  | httpError (e : HttpError)
  | valueErrorNoRoutes
  | zeroDivisionError
  | valueErrorEmptySeq
  deriving DecidableEq

/-- The part of `GoogleRoutesClient.get_route_details`
(`routes_client.py` lines 159-185) that the driver assistant reads: raises
`ValueError` when the response has no routes, else extracts distance and
duration of the first route. -/
structure RouteDetails where
  distance_km : ℚ
  duration_minutes : ℚ
  deriving DecidableEq

def get_route_details (route_response : RouteResponse) : Except PyError RouteDetails :=
  match route_response.routes with
  | [] => .error .valueErrorNoRoutes
  | route :: _ =>
      .ok { distance_km := route.distanceMeters.getD 0 / 1000
            duration_minutes := route.durationSeconds.getD 0 / 60 }

/-- A sample point produced by `interpolate_route_points`.
`distance_from_start` is `none` when the returned dict lacks that key, which
happens on the degenerate `len(route_points) < 2` return path (line 99). -/
structure SampledPoint where
  latitude : ℚ
  longitude : ℚ
  distance_from_start : Option ℚ
  deriving DecidableEq

/-- `point.get("distance_from_start", 0)`: the read every consumer of a sample
point performs (lines 180, 195, 407, 420). -/
def SampledPoint.distD (p : SampledPoint) : ℚ := p.distance_from_start.getD 0

/-- Truthiness extraction of a leg endpoint (lines 84-94): the point is kept
only when both coordinates are present and nonzero — Python
`if start_location.get("latitude") and start_location.get("longitude")`
treats a missing key and the float `0.0` alike as falsy. -/
def extractPoint (p : LatLng) : Option GeoPoint :=
  match p.latitude, p.longitude with
  | some la, some lo => if la ≠ 0 ∧ lo ≠ 0 then some ⟨la, lo⟩ else none
  | _, _ => none

/-- The flat `route_points` list built from the legs (lines 77-94): each leg
contributes its usable start point then its usable end point. -/
def rawPoints (legs : List Leg) : List GeoPoint :=
  legs.flatMap fun leg =>
    (extractPoint leg.startLocation).toList ++ (extractPoint leg.endLocation).toList

/-- `num_intervals = max(1, int(segment_distance / interval_km))` (line 115). -/
def numIntervals (segment_distance interval_km : ℚ) : ℕ :=
  (max 1 (truncInt (segment_distance / interval_km))).toNat

section DriverAssistant

variable (calculate_distance : GeoPoint → GeoPoint → ℚ)

/-- The inner `for j in range(num_intervals + 1)` loop (lines 117-128) for one
consecutive pair of route points, at cumulative offset `total_distance`. -/
def sampleSegment (p1 p2 : GeoPoint) (interval_km total_distance : ℚ) :
    List SampledPoint :=
  let segment_distance := calculate_distance p1 p2
  let n := numIntervals segment_distance interval_km
  (List.range (n + 1)).map fun j : ℕ =>
    let frac : ℚ := (j : ℚ) / (n : ℚ)
    { latitude := p1.latitude + frac * (p2.latitude - p1.latitude)
      longitude := p1.longitude + frac * (p2.longitude - p1.longitude)
      distance_from_start := some (total_distance + frac * segment_distance) }

/-- The outer `for i in range(len(route_points) - 1)` loop (lines 105-130),
threading the cumulative `total_distance`. -/
def interpLoop (interval_km : ℚ) : List GeoPoint → ℚ → List SampledPoint
  | p1 :: p2 :: rest, total_distance =>
      sampleSegment calculate_distance p1 p2 interval_km total_distance ++
        interpLoop interval_km (p2 :: rest)
          (total_distance + calculate_distance p1 p2)
  | _, _ => []

/-- `DriverAssistant.interpolate_route_points` (lines 59-133). The Python body
raises `ZeroDivisionError` at the first `segment_distance / interval_km`
division when `interval_km == 0`; with at least two raw points that division
is always reached, so the model raises it up front in exactly that case.
There is no validation of `interval_km` whatsoever: any nonzero value,
negative included, produces a point list. -/
def interpolate_route_points (route_response : RouteResponse) (interval_km : ℚ) :
    Except PyError (List SampledPoint) :=
  match route_response.routes with
  | [] => .ok []
  | route :: _ =>
      let route_points := rawPoints route.legs
      if route_points.length < 2 then
        .ok (route_points.map fun p => ⟨p.latitude, p.longitude, none⟩)
      else if interval_km = 0 then .error .zeroDivisionError
      else .ok (interpLoop calculate_distance interval_km route_points 0)

end DriverAssistant

/-- The `location` sub-dict of a place record; either coordinate may be
missing. -/
structure ServiceLocation where
  latitude : Option ℚ
  longitude : Option ℚ
  deriving DecidableEq

/-- The `search_point` dict stamped onto each service
(`driver_assistant.py` lines 192-196). -/
structure SearchPointInfo where
  latitude : ℚ
  longitude : ℚ
  distance_from_start : ℚ
  deriving DecidableEq

/-- A place record as handled by the aggregator. `id` models
`service.get("id", "")`, so a missing id is the falsy `""`; `name` models the
`place.get('displayName', {}).get('text', '')` chain with missing pieces read
as `""`. The two fields mutated by lines 192-205 start out `none`. -/
structure Service where
  id : String
  name : String
  types : List String
  location : Option ServiceLocation
  search_point : Option SearchPointInfo := none
  distance_from_route : Option ℚ := none
  deriving DecidableEq

/-- `GooglePlacesClient.search_nearby` (`places_client.py` lines 54-105) as a
function of its HTTP outcome: the `places` list of a successful response, and
an **empty list** when the request errors — lines 99-105 catch both
`requests` exception classes and return `[]` instead of re-raising. -/
def search_nearby (outcome : Except HttpError (List Service)) : List Service :=
  match outcome with
  | .ok places => places
  | .error _ => []

/-- `GooglePlacesClient.search_truck_friendly_places` (`places_client.py`
lines 143-199): the same catch-and-return-`[]` shape as `search_nearby`. -/
def search_truck_friendly_places (outcome : Except HttpError (List Service)) :
    List Service :=
  match outcome with
  | .ok places => places
  | .error _ => []

/-- Character-list matching at the front (needle against haystack). -/
def matchesAtFront : List Char → List Char → Bool
  | [], _ => true
  | _ :: _, [] => false
  | a :: as, b :: bs => a == b && matchesAtFront as bs

/-- Python `needle in haystack` substring containment on strings. -/
def occursIn (needle : List Char) : List Char → Bool
  | [] => needle.isEmpty
  | b :: bs => matchesAtFront needle (b :: bs) || occursIn needle bs

/-- `any(indicator in name for indicator in indicators)` over a lowered name. -/
def nameMatchesAny (indicators : List String) (name : String) : Bool :=
  indicators.any fun ind => occursIn ind.toList name.toList

/-- The always-open heuristic of `search_24h_services` (`places_client.py`
lines 337-346): keep a place when its lowered display name contains a 24h
indicator, or else (elif) when it contains a major-chain token. -/
def keep24h (place : Service) : Bool :=
  nameMatchesAny ["24", "nonstop", "gece", "açık"] place.name.toLower ||
    nameMatchesAny ["shell", "bp", "mcdonalds", "burger king"] place.name.toLower

/-- `GooglePlacesClient.search_24h_services` (`places_client.py` lines
307-349): three sequential `search_nearby` calls (gas_station,
convenience_store, restaurant), each filtered by the heuristic, results
accumulated in call order. -/
def search_24h_services (o_gas o_conv o_rest : Except HttpError (List Service)) :
    List Service :=
  (search_nearby o_gas).filter keep24h ++ (search_nearby o_conv).filter keep24h ++
    (search_nearby o_rest).filter keep24h

/-- The coordinate fallback key of the dedup loop (lines 220-221):
`f"{location.get('latitude', 0):.6f},{location.get('longitude', 0):.6f}"`
where `location = service.get("location", {})`. -/
def coordKey (s : Service) : String :=
  let loc := s.location.getD ⟨none, none⟩
  format6 (loc.latitude.getD 0) ++ "," ++ format6 (loc.longitude.getD 0)

/-- The identity under which lines 212-223 collapse duplicates: the non-empty
`id` when present, else the rounded-coordinate string. -/
def dedupKey (s : Service) : String :=
  if s.id = "" then coordKey s else s.id

/-- One iteration of the dedup loop (lines 214-223) over the
insertion-ordered dict `unique_services`, modeled as an association list. -/
def dedupStep (acc : List (String × Service)) (service : Service) :
    List (String × Service) :=
  if service.id = "" then
    let ck := coordKey service
    if (acc.lookup ck).isNone then acc ++ [(ck, service)] else acc
  else
    if (acc.lookup service.id).isNone then acc ++ [(service.id, service)] else acc

/-- `unique_services = {...}; list(unique_services.values())`
(lines 213-225). -/
def uniqueServicesList (all_services : List Service) : List Service :=
  (all_services.foldl dedupStep []).map Prod.snd

/-- One counter bump of `DriverAssistant._categorize_services`
(lines 268-277), keeping the dict's insertion order. -/
def bumpCategory (categories : List (String × ℕ)) (t : String) :
    List (String × ℕ) :=
  match categories.lookup t with
  | some _ => categories.map fun kv => if kv.1 = t then (kv.1, kv.2 + 1) else kv
  | none => categories ++ [(t, 1)]

/-- `DriverAssistant._categorize_services` (lines 258-279): histogram over
every record's `types` (a record with N types feeds N buckets). -/
def categorize_services (services : List Service) : List (String × ℕ) :=
  services.foldl (fun acc s => s.types.foldl bumpCategory acc) []

/-- The sort key of line 228:
`x.get("search_point", {}).get("distance_from_start", 0)`. -/
def sortKey (s : Service) : ℚ :=
  match s.search_point with
  | some sp => sp.distance_from_start
  | none => 0

/-- The fields of the `find_services_along_route` result dict that carry
route or service data (request echoes such as `origin`, `search_parameters`
and the timestamp are omitted: no claim mentions them). -/
structure RouteServiceReport where
  distance_km : ℚ
  duration_minutes : ℚ
  route_points : List SampledPoint
  services_found : List Service
  total_services : ℕ
  services_by_type : List (String × ℕ)
  deriving DecidableEq

section DriverAssistantServices

variable (calculate_distance : GeoPoint → GeoPoint → ℚ)

/-- Lines 191-205: stamp `search_point` onto a found service and, when the
service location passes the truthiness test (`location.get("latitude") and
location.get("longitude")`, so present and nonzero), also
`distance_from_route`. -/
def stampService (point : SampledPoint) (service : Service) : Service :=
  let stamped := { service with
    search_point := some ⟨point.latitude, point.longitude, point.distD⟩ }
  match service.location with
  | some loc =>
      match loc.latitude, loc.longitude with
      | some la, some lo =>
          if la ≠ 0 ∧ lo ≠ 0 then
            let d := calculate_distance ⟨point.latitude, point.longitude⟩ ⟨la, lo⟩
            { stamped with distance_from_route := some d }
          else stamped
      | _, _ => stamped
  | none => stamped

/-- The `for i, point in enumerate(route_points)` accumulation (lines
175-207), carrying the running index `i`. -/
def stampLoop (place_outcome : ℕ → Except HttpError (List Service)) :
    ℕ → List SampledPoint → List Service
  | _, [] => []
  | i, point :: rest =>
      (search_nearby (place_outcome i)).map (stampService calculate_distance point) ++
        stampLoop place_outcome (i + 1) rest

/-- Lines 175-207: query every sample point sequentially, in point order, and
stamp each returned service. `place_outcome i` is the HTTP outcome of the
`search_nearby` call issued at the `i`-th sample point. -/
def allStampedServices (route_points : List SampledPoint)
    (place_outcome : ℕ → Except HttpError (List Service)) : List Service :=
  stampLoop calculate_distance place_outcome 0 route_points

/-- `DriverAssistant.find_services_along_route` (lines 135-256).
`route_outcome` is the HTTP outcome of `compute_route` (whose exceptions the
`except` block of lines 254-256 logs and re-raises unchanged); place queries
never raise, see `search_nearby`. `search_radius_km` only parameterizes the
collaborator queries, which the outcomes already reflect. Python's stable
`list.sort` (line 228) is modeled by insertion sort, which computes the same
stable ascending ordering. -/
def find_services_along_route (route_outcome : Except HttpError RouteResponse)
    (place_outcome : ℕ → Except HttpError (List Service))
    (search_radius_km interval_km : ℚ) : Except PyError RouteServiceReport :=
  match route_outcome with
  | .error e => .error (.httpError e)
  | .ok route_response =>
    match get_route_details route_response with
    | .error e => .error e
    | .ok route_details =>
      match interpolate_route_points calculate_distance route_response interval_km with
      | .error e => .error e
      | .ok route_points =>
          let all_services :=
            allStampedServices calculate_distance route_points place_outcome
          let unique_services_list :=
            List.insertionSort (fun a b => sortKey a ≤ sortKey b)
              (uniqueServicesList all_services)
          .ok { distance_km := route_details.distance_km
                duration_minutes := route_details.duration_minutes
                route_points := route_points
                services_found := unique_services_list
                total_services := unique_services_list.length
                services_by_type := categorize_services unique_services_list }

end DriverAssistantServices

/-- The `summary` dict of `find_emergency_services` (lines 344-349). -/
structure EmergencySummary where
  total_24h_stations : ℕ
  total_repair_shops : ℕ
  total_hospitals : ℕ
  total_police_stations : ℕ
  deriving DecidableEq

/-- The result dict of `find_emergency_services` (lines 340-351); the
`emergency_services` dict is modeled as an insertion-ordered association
list. -/
structure EmergencyResult where
  latitude : ℚ
  longitude : ℚ
  search_radius_km : ℚ
  emergency_services : List (String × List Service)
  summary : EmergencySummary
  deriving DecidableEq

/-- `DriverAssistant.find_emergency_services` (lines 281-351). `o 0`, `o 1`,
`o 2` are the HTTP outcomes of the three sub-queries of
`search_24h_services`, and `o 3`, `o 4`, `o 5` those of the car_repair,
hospital and police queries, in call order. None of these calls can raise
(the places client catches and returns `[]`), so the method always returns a
result. -/
def find_emergency_services (o : ℕ → Except HttpError (List Service))
    (latitude longitude radius_km : ℚ) : EmergencyResult :=
  let gas_stations_24h := search_24h_services (o 0) (o 1) (o 2)
  let repair_shops := search_nearby (o 3)
  let hospitals := search_nearby (o 4)
  let police := search_nearby (o 5)
  { latitude := latitude
    longitude := longitude
    search_radius_km := radius_km
    emergency_services :=
      [("24h_gas_stations", gas_stations_24h), ("repair_shops", repair_shops),
        ("hospitals", hospitals), ("police_stations", police)]
    summary :=
      ⟨gas_stations_24h.length, repair_shops.length, hospitals.length, police.length⟩ }

/-- One planned stop (the dict of lines 417-428).
`estimated_arrival_minutes` is the numeric value Python embeds into the
`"... minutes from start"` string of line 425. -/
structure StopPlan where
  stop_number : ℕ
  planned_distance_km : ℚ
  actual_distance_km : ℚ
  latitude : ℚ
  longitude : ℚ
  estimated_arrival_minutes : ℚ
  available_services : List Service
  service_count : ℕ
  deriving DecidableEq

/-- The result dict of `plan_driver_stops`. `stops_needed` models the
`stops_needed` key of the early return (line 392) and the
`regulation_info["stops_required"]` key of the full return (line 439);
`planned_stops = none` models the early return, whose dict carries **no**
`planned_stops` key at all (lines 389-394). -/
structure StopPlanResult where
  stops_needed : ℕ
  planned_stops : Option (List StopPlan)
  total_distance_km : ℚ
  total_duration_minutes : ℚ
  deriving DecidableEq

/-- Python `min(xs, key=f)` on a nonempty sequence `x :: xs`: the first
element with minimal key wins (replacement only on a strictly smaller key). -/
def argminBy {α : Type} (f : α → ℚ) (x : α) (xs : List α) : α :=
  xs.foldl (fun best y => if f y < f best then y else best) x

section DriverAssistantStops

variable (calculate_distance : GeoPoint → GeoPoint → ℚ)

/-- `DriverAssistant.plan_driver_stops` (lines 353-448). `stop_outcome i` is
the HTTP outcome of the `search_truck_friendly_places` query of stop `i`.
Division by a zero `driving_hours_limit` (line 387) or a zero route distance
(line 425) raises `ZeroDivisionError`; the line-425 division is only ever
reached with a zero distance when the sampler took its degenerate
single-point path, because otherwise a zero `stop_interval_km` already made
the sampler raise. `min()` over an empty `route_points` raises `ValueError`
(line 406). -/
def plan_driver_stops (route_outcome : Except HttpError RouteResponse)
    (stop_outcome : ℕ → Except HttpError (List Service))
    (driving_hours_limit : ℚ) : Except PyError StopPlanResult :=
  match route_outcome with
  | .error e => .error (.httpError e)
  | .ok route_response =>
    match get_route_details route_response with
    | .error e => .error e
    | .ok route_details =>
      let total_duration_hours := route_details.duration_minutes / 60
      if driving_hours_limit = 0 then .error .zeroDivisionError
      else
        let num_stops :=
          (max 0 (truncInt (total_duration_hours / driving_hours_limit))).toNat
        if num_stops = 0 then
          .ok { stops_needed := 0
                planned_stops := none
                total_distance_km := route_details.distance_km
                total_duration_minutes := route_details.duration_minutes }
        else
          let stop_interval_km := route_details.distance_km / (num_stops + 1)
          match interpolate_route_points calculate_distance route_response
              stop_interval_km with
          | .error e => .error e
          | .ok route_points =>
            match route_points with
            | [] => .error .valueErrorEmptySeq
            | p0 :: prest =>
              if route_details.distance_km = 0 then .error .zeroDivisionError
              else
                let planned_stops := (List.range num_stops).map fun idx =>
                  let i : ℕ := idx + 1
                  let stop_distance := (i : ℚ) * stop_interval_km
                  let closest_point :=
                    argminBy (fun p => |p.distD - stop_distance|) p0 prest
                  let stop_services :=
                    search_truck_friendly_places (stop_outcome i)
                  { stop_number := i
                    planned_distance_km := stop_distance
                    actual_distance_km := closest_point.distD
                    latitude := closest_point.latitude
                    longitude := closest_point.longitude
                    estimated_arrival_minutes :=
                      stop_distance / route_details.distance_km *
                        route_details.duration_minutes
                    available_services := stop_services.take 5
                    service_count := stop_services.length }
                .ok { stops_needed := num_stops
                      planned_stops := some planned_stops
                      total_distance_km := route_details.distance_km
                      total_duration_minutes := route_details.duration_minutes }

end DriverAssistantStops

/-- The stored `distance_from_start` values of a point list, in order
(points whose dict lacks the key contribute nothing). -/
def sampledDistances (pts : List SampledPoint) : List ℚ :=
  pts.filterMap SampledPoint.distance_from_start

/-! ### Concrete fixtures used by witnesses and counterexamples -/

/-- A concrete stand-in for `calculate_distance` (the theorems hold for any
non-negative distance function, as haversine is): constant 60 km. -/
def cDist : GeoPoint → GeoPoint → ℚ := fun _ _ => 60

/-- A single leg from (1,2) to (3,4), both endpoints usable. -/
def cLeg : Leg := ⟨⟨some 1, some 2⟩, ⟨some 3, some 4⟩⟩

/-- One-route response: one leg, 454 km, 250 minutes (15000 s). -/
def cResp : RouteResponse := ⟨[⟨[cLeg], some 454000, some 15000⟩]⟩

/-- One-route response: one leg, 454 km, 300 minutes (18000 s). -/
def cResp300 : RouteResponse := ⟨[⟨[cLeg], some 454000, some 18000⟩]⟩

/-- A degenerate response: the leg's end point has a falsy (zero) latitude,
so only one raw route point is usable. -/
def cRespDegenerate : RouteResponse :=
  ⟨[⟨[⟨⟨some 5, some 6⟩, ⟨some 0, some 3⟩⟩], none, none⟩]⟩

/-- Place-search outcomes that always fail. -/
def cPlaceErr : ℕ → Except HttpError (List Service) := fun _ => .error (.requestFailed 7)

/-- A service with id `"A"` and no location dict. -/
def cServiceA : Service := ⟨"A", "n", [], none, none, none⟩

/-- Place-search outcomes returning the same id-`"A"` record at every sample
point. -/
def cPlaceA : ℕ → Except HttpError (List Service) := fun _ => .ok [cServiceA]

/-- An id-less, location-less service. -/
def cServiceX : Service := ⟨"", "x", [], none, none, none⟩

/-- A second, distinct id-less, location-less service. -/
def cServiceY : Service := ⟨"", "y", [], none, none, none⟩

/-- `cServiceA` as stamped at the first sample point of `cResp`. -/
def cStampedA : Service := ⟨"A", "n", [], none, some ⟨1, 2, 0⟩, none⟩

/-- The full report of `find_services_along_route` on `cResp` with `cPlaceA`
outcomes, radius 10, interval 50. -/
def cReportA : RouteServiceReport :=
  ⟨454, 250, [⟨1, 2, some 0⟩, ⟨3, 4, some 60⟩], [cStampedA], 1, []⟩

/-- The report of `find_services_along_route` on `cResp` when every place
query fails (`cPlaceErr`): an empty, yet successful, service list. -/
def cReportEmpty : RouteServiceReport :=
  ⟨454, 250, [⟨1, 2, some 0⟩, ⟨3, 4, some 60⟩], [], 0, []⟩

/-- The single planned stop of `plan_driver_stops` on `cResp300` with limit
4.5 h: planned at 227 km, snapped to the 60 km sample point, ETA
227/454*300 = 150 minutes. -/
def cStop1 : StopPlan := ⟨1, 227, 60, 3, 4, 150, [], 0⟩

/-- The full `plan_driver_stops` result on `cResp300` with limit 4.5 h. -/
def cPlanResult : StopPlanResult := ⟨1, some [cStop1], 454, 300⟩

/-! ### Lemmas about the route-point sampler -/

lemma interpolate_nil (cd : GeoPoint → GeoPoint → ℚ) (k : ℚ) :
    interpolate_route_points cd ⟨[]⟩ k = .ok [] := rfl

lemma interpolate_cons (cd : GeoPoint → GeoPoint → ℚ) (route : RouteInfo)
    (rest : List RouteInfo) (k : ℚ) :
    interpolate_route_points cd ⟨route :: rest⟩ k =
      if (rawPoints route.legs).length < 2 then
        .ok ((rawPoints route.legs).map fun p => ⟨p.latitude, p.longitude, none⟩)
      else if k = 0 then .error .zeroDivisionError
      else .ok (interpLoop cd k (rawPoints route.legs) 0) := rfl

lemma numIntervals_pos (s k : ℚ) : 0 < numIntervals s k := by
  have h : (1 : ℤ) ≤ max 1 (truncInt (s / k)) := le_max_left _ _
  unfold numIntervals
  omega

lemma sampledDistances_sampleSegment (cd : GeoPoint → GeoPoint → ℚ)
    (p1 p2 : GeoPoint) (k c : ℚ) :
    sampledDistances (sampleSegment cd p1 p2 k c) =
      (List.range (numIntervals (cd p1 p2) k + 1)).map
        fun j : ℕ => c + (j : ℚ) / (numIntervals (cd p1 p2) k : ℚ) * cd p1 p2 := by
  unfold sampledDistances sampleSegment
  rw [List.filterMap_map]
  exact List.filterMap_eq_map _ ▸ rfl

lemma segment_distance_le (cd : GeoPoint → GeoPoint → ℚ) (p1 p2 : GeoPoint)
    (hs : 0 ≤ cd p1 p2) (k c : ℚ) :
    ∀ d ∈ sampledDistances (sampleSegment cd p1 p2 k c), c ≤ d := by
  rw [sampledDistances_sampleSegment]
  intro d hd
  rcases List.mem_map.mp hd with ⟨j, _, rfl⟩
  have hfrac : 0 ≤ (j : ℚ) / (numIntervals (cd p1 p2) k : ℚ) :=
    div_nonneg (Nat.cast_nonneg j) (Nat.cast_nonneg _)
  nlinarith [mul_nonneg hfrac hs]

lemma segment_chain (cd : GeoPoint → GeoPoint → ℚ) (p1 p2 : GeoPoint)
    (hs : 0 ≤ cd p1 p2) (k c : ℚ) :
    List.Chain' (· ≤ ·) (sampledDistances (sampleSegment cd p1 p2 k c)) := by
  rw [sampledDistances_sampleSegment]
  rw [List.chain'_map]
  rw [List.chain'_range_succ]
  intro m _
  have hn : (0 : ℚ) < (numIntervals (cd p1 p2) k : ℚ) := by
    exact_mod_cast numIntervals_pos (cd p1 p2) k
  have hdiv : (m : ℚ) / (numIntervals (cd p1 p2) k : ℚ) ≤
      ((m + 1 : ℕ) : ℚ) / (numIntervals (cd p1 p2) k : ℚ) := by
    apply (div_le_div_iff_of_pos_right hn).mpr
    push_cast
    linarith
  have := mul_le_mul_of_nonneg_right hdiv hs
  push_cast at this ⊢
  linarith

lemma segment_getLast (cd : GeoPoint → GeoPoint → ℚ) (p1 p2 : GeoPoint) (k c : ℚ) :
    (sampledDistances (sampleSegment cd p1 p2 k c)).getLast? = some (c + cd p1 p2) := by
  rw [sampledDistances_sampleSegment]
  have hne : ((numIntervals (cd p1 p2) k : ℕ) : ℚ) ≠ 0 := by
    have := numIntervals_pos (cd p1 p2) k
    positivity
  rw [List.range_succ, List.map_append, List.getLast?_append]
  simp [div_self hne]

/-- Invariant of the outer interpolation loop: the emitted distance sequence
is non-decreasing and bounded below by the cumulative offset. -/
lemma interpLoop_distances_inv (cd : GeoPoint → GeoPoint → ℚ)
    (hd : ∀ a b, 0 ≤ cd a b) (k : ℚ) :
    ∀ (pts : List GeoPoint) (c : ℚ),
      List.Chain' (· ≤ ·) (sampledDistances (interpLoop cd k pts c)) ∧
        ∀ d ∈ sampledDistances (interpLoop cd k pts c), c ≤ d := by
  intro pts
  induction pts with
  | nil => intro c; simp [interpLoop, sampledDistances]
  | cons p1 tail ih =>
    intro c
    cases tail with
    | nil => simp [interpLoop, sampledDistances]
    | cons p2 rest =>
      have hrec := ih (c + cd p1 p2)
      have hsplit : sampledDistances (interpLoop cd k (p1 :: p2 :: rest) c) =
          sampledDistances (sampleSegment cd p1 p2 k c) ++
            sampledDistances (interpLoop cd k (p2 :: rest) (c + cd p1 p2)) := by
        have hstep : interpLoop cd k (p1 :: p2 :: rest) c =
            sampleSegment cd p1 p2 k c ++
              interpLoop cd k (p2 :: rest) (c + cd p1 p2) := rfl
        rw [hstep]
        unfold sampledDistances
        exact List.filterMap_append _ _ _
      rw [hsplit]
      constructor
      · apply List.Chain'.append (segment_chain cd p1 p2 (hd p1 p2) k c) hrec.1
        intro x hx y hy
        rw [segment_getLast cd p1 p2 k c] at hx
        have hx' : x = c + cd p1 p2 := by
          cases hx
          rfl
        subst hx'
        exact hrec.2 y (List.mem_of_mem_head? hy)
      · intro d hdmem
        rcases List.mem_append.mp hdmem with h | h
        · exact segment_distance_le cd p1 p2 (hd p1 p2) k c d h
        · have := hrec.2 d h
          have := hd p1 p2
          linarith

/-- C1: for every route leg list and every `intervalKm > 0`, the sample
points returned by `interpolate_route_points` carry non-decreasing
`distance_from_start` values, in the order the points are returned.
(Stated for any non-negative distance function; the haversine
`calculate_distance` is non-negative.) -/
theorem interpolate_route_points_monotone
    (calculate_distance : GeoPoint → GeoPoint → ℚ)
    (hdist : ∀ a b, 0 ≤ calculate_distance a b)
    (route_response : RouteResponse) (interval_km : ℚ) (hk : 0 < interval_km)
    (pts : List SampledPoint)
    (h : interpolate_route_points calculate_distance route_response interval_km =
      .ok pts) :
    List.Chain' (· ≤ ·) (sampledDistances pts) := by
  unfold interpolate_route_points at h
  rcases route_response with ⟨routes⟩
  cases routes with
  | nil =>
    simp only [Except.ok.injEq] at h
    subst h
    simp [sampledDistances]
  | cons route rest =>
    simp only at h
    split at h
    · simp only [Except.ok.injEq] at h
      subst h
      have : sampledDistances
          ((rawPoints route.legs).map fun p =>
            (⟨p.latitude, p.longitude, none⟩ : SampledPoint)) = [] := by
        unfold sampledDistances
        rw [List.filterMap_map]
        simp [Function.comp]
      rw [this]
      exact List.chain'_nil
    · split at h
      · exact absurd h (by simp)
      · simp only [Except.ok.injEq] at h
        subst h
        exact (interpLoop_distances_inv calculate_distance hdist interval_km
          (rawPoints route.legs) 0).1

/-- C1 witness: the monotonicity theorem applied to a concrete one-leg route
sampled at 50 km. -/
theorem interpolate_route_points_monotone_witness :
    List.Chain' (· ≤ ·) (sampledDistances [⟨1, 2, some 0⟩, ⟨3, 4, some 60⟩]) :=
  interpolate_route_points_monotone cDist (fun _ _ => by norm_num [cDist]) cResp 50
    (by norm_num) _
    (by norm_num [interpolate_route_points, rawPoints, extractPoint, List.flatMap,
      interpLoop, sampleSegment, numIntervals, truncInt, List.range_succ, cLeg,
      cResp, cDist])

/-- C4 amended: for a single leg **both of whose endpoints are usable** —
each latitude and longitude present and nonzero, since the truthiness check
of lines 84-94 drops an endpoint with a `0.0` coordinate — at
`calculate_distance` `d` apart, and any `intervalKm > 0`, the sampler emits
exactly `max(1, floor(d / intervalKm)) + 1` points, produced by linear
interpolation at ratios `j / numIntervals` for `j = 0 .. numIntervals`, with
stamped distances `0 + ratio * d`. A leg with a falsy endpoint coordinate
loses that endpoint and takes the degenerate single-point path instead. -/
theorem single_leg_sample_count
    (calculate_distance : GeoPoint → GeoPoint → ℚ)
    (hdist : ∀ a b, 0 ≤ calculate_distance a b)
    (la1 lo1 la2 lo2 : ℚ) (h1 : la1 ≠ 0) (h2 : lo1 ≠ 0) (h3 : la2 ≠ 0)
    (h4 : lo2 ≠ 0) (dm ds : Option ℚ) (interval_km : ℚ) (hk : 0 < interval_km)
    (d : ℚ) (hd : d = calculate_distance ⟨la1, lo1⟩ ⟨la2, lo2⟩)
    (n : ℕ) (hn : n = (max 1 ⌊d / interval_km⌋).toNat) :
    ∃ pts, interpolate_route_points calculate_distance
        ⟨[⟨[⟨⟨some la1, some lo1⟩, ⟨some la2, some lo2⟩⟩], dm, ds⟩]⟩ interval_km =
          .ok pts ∧
      pts.length = (max 1 ⌊d / interval_km⌋).toNat + 1 ∧
      pts = (List.range (n + 1)).map fun j : ℕ =>
        ⟨la1 + (j : ℚ) / (n : ℚ) * (la2 - la1),
          lo1 + (j : ℚ) / (n : ℚ) * (lo2 - lo1),
          some (0 + (j : ℚ) / (n : ℚ) * d)⟩ := by
  have hraw : rawPoints [⟨⟨some la1, some lo1⟩, ⟨some la2, some lo2⟩⟩] =
      [⟨la1, lo1⟩, ⟨la2, lo2⟩] := by
    simp [rawPoints, extractPoint, List.flatMap, h1, h2, h3, h4]
  have htrunc : truncInt (d / interval_km) = ⌊d / interval_km⌋ := by
    unfold truncInt
    rw [if_pos (div_nonneg (hd ▸ hdist _ _) hk.le)]
  have hnum : numIntervals d interval_km = n := by
    rw [hn]
    unfold numIntervals
    rw [htrunc]
  refine ⟨sampleSegment calculate_distance ⟨la1, lo1⟩ ⟨la2, lo2⟩ interval_km 0, ?_, ?_, ?_⟩
  · unfold interpolate_route_points
    simp only [hraw]
    rw [if_neg (by norm_num), if_neg hk.ne']
    have : interpLoop calculate_distance interval_km [⟨la1, lo1⟩, ⟨la2, lo2⟩] 0 =
        sampleSegment calculate_distance ⟨la1, lo1⟩ ⟨la2, lo2⟩ interval_km 0 ++
          interpLoop calculate_distance interval_km [⟨la2, lo2⟩]
            (0 + calculate_distance ⟨la1, lo1⟩ ⟨la2, lo2⟩) := rfl
    rw [this]
    have h2' : interpLoop calculate_distance interval_km [⟨la2, lo2⟩]
        (0 + calculate_distance ⟨la1, lo1⟩ ⟨la2, lo2⟩) = [] := rfl
    rw [h2', List.append_nil]
  · simp only [sampleSegment, List.length_map, List.length_range, ← hd, hnum, hn]
  · simp only [sampleSegment, ← hd, hnum]

/-- C4 witness: the single-leg count theorem at a concrete leg with
`d = 60`, `intervalKm = 25`, hence `max(1, floor(60/25)) + 1 = 3` points. -/
theorem single_leg_sample_count_witness :
    ∃ pts, interpolate_route_points cDist
        ⟨[⟨[⟨⟨some 1, some 2⟩, ⟨some 3, some 4⟩⟩], some 454000, some 15000⟩]⟩ 25 =
          .ok pts ∧
      pts.length = (max 1 ⌊cDist ⟨1, 2⟩ ⟨3, 4⟩ / 25⌋).toNat + 1 ∧
      pts = (List.range (2 + 1)).map fun j : ℕ =>
        ⟨1 + (j : ℚ) / (2 : ℚ) * (3 - 1), 2 + (j : ℚ) / (2 : ℚ) * (4 - 2),
          some (0 + (j : ℚ) / (2 : ℚ) * cDist ⟨1, 2⟩ ⟨3, 4⟩)⟩ :=
  single_leg_sample_count cDist (fun _ _ => by norm_num [cDist]) 1 2 3 4
    (by norm_num) (by norm_num) (by norm_num) (by norm_num) (some 454000)
    (some 15000) 25 (by norm_num) (cDist ⟨1, 2⟩ ⟨3, 4⟩) rfl 2
    (by norm_num [cDist]; decide)

/-- C4 counterexample: a single leg from (0, 10) to (3, 4) — endpoints a
positive distance apart, sampled at `intervalKm = 50`. Python's truthiness
check drops the start point because its latitude is the falsy `0.0`, leaving
one raw point, so the sampler emits exactly **1** point (with no
interpolation), not the `max(1, floor(d/k)) + 1 = 2` the claim requires for
every single leg. -/
theorem single_leg_zero_coordinate_one_point :
    interpolate_route_points cDist
        ⟨[⟨[⟨⟨some 0, some 10⟩, ⟨some 3, some 4⟩⟩], none, none⟩]⟩ 50 =
      .ok [⟨3, 4, none⟩] ∧
    ([(⟨3, 4, none⟩ : SampledPoint)]).length ≠
      (max 1 ⌊cDist ⟨0, 10⟩ ⟨3, 4⟩ / 50⌋).toNat + 1 := by
  constructor
  · norm_num [interpolate_route_points, rawPoints, extractPoint, List.flatMap,
      cDist]
  · norm_num [cDist]

/-- C9 amended: when fewer than 2 raw points exist, the sampler returns the
raw points unchanged, with no interpolation; the returned dicts carry **no**
`distance_from_start` key (`none`), and every consumer that reads the key
with default 0 (`point.get("distance_from_start", 0)`) therefore sees 0. -/
theorem interpolate_degenerate_as_is
    (calculate_distance : GeoPoint → GeoPoint → ℚ)
    (route_response : RouteResponse) (interval_km : ℚ)
    (route : RouteInfo) (rest : List RouteInfo)
    (hroutes : route_response.routes = route :: rest)
    (hlen : (rawPoints route.legs).length < 2) :
    interpolate_route_points calculate_distance route_response interval_km =
      .ok ((rawPoints route.legs).map fun p => ⟨p.latitude, p.longitude, none⟩) ∧
    ∀ q ∈ (rawPoints route.legs).map
        (fun p => (⟨p.latitude, p.longitude, none⟩ : SampledPoint)),
      q.distance_from_start = none ∧ q.distD = 0 := by
  constructor
  · rcases route_response with ⟨routes⟩
    simp only at hroutes
    subst hroutes
    rw [interpolate_cons, if_pos hlen]
  · intro q hq
    rcases List.mem_map.mp hq with ⟨p, _, rfl⟩
    exact ⟨rfl, rfl⟩

/-- C9 witness: the degenerate theorem at a concrete response with exactly
one usable raw point. -/
theorem interpolate_degenerate_as_is_witness :
    interpolate_route_points cDist cRespDegenerate 50 =
      .ok ((rawPoints (⟨[⟨⟨some 5, some 6⟩, ⟨some 0, some 3⟩⟩], none, none⟩ :
        RouteInfo).legs).map fun p => ⟨p.latitude, p.longitude, none⟩) ∧
    ∀ q ∈ (rawPoints (⟨[⟨⟨some 5, some 6⟩, ⟨some 0, some 3⟩⟩], none, none⟩ :
        RouteInfo).legs).map
        (fun p => (⟨p.latitude, p.longitude, none⟩ : SampledPoint)),
      q.distance_from_start = none ∧ q.distD = 0 :=
  interpolate_degenerate_as_is cDist cRespDegenerate 50 _ [] rfl
    (by norm_num [rawPoints, extractPoint, List.flatMap])

/-- C9 counterexample: on a one-usable-point route the sampler returns the
raw point with **no** `distance_from_start` entry — the stored field is
`none`, not `some 0` as the claim's "with a distance_from_start of 0"
states. -/
theorem interpolate_degenerate_distance_absent :
    interpolate_route_points cDist cRespDegenerate 50 = .ok [⟨5, 6, none⟩] ∧
    (⟨5, 6, none⟩ : SampledPoint).distance_from_start ≠ some 0 := by
  constructor
  · norm_num [interpolate_route_points, rawPoints, extractPoint, List.flatMap,
      cRespDegenerate]
  · simp

/-- A nonzero interval — positive or negative — never makes the sampler
fail. -/
lemma interpolate_ok_of_ne_zero (calculate_distance : GeoPoint → GeoPoint → ℚ)
    (route_response : RouteResponse) (interval_km : ℚ) (hk : interval_km ≠ 0) :
    ∃ pts, interpolate_route_points calculate_distance route_response interval_km =
      .ok pts := by
  rcases route_response with ⟨routes⟩
  cases routes with
  | nil => exact ⟨[], interpolate_nil calculate_distance interval_km⟩
  | cons route rest =>
    rw [interpolate_cons]
    by_cases hlen : (rawPoints route.legs).length < 2
    · rw [if_pos hlen]
      exact ⟨_, rfl⟩
    · rw [if_neg hlen, if_neg hk]
      exact ⟨_, rfl⟩

/-- C6 amended: `interpolate_route_points` performs no validation of
`intervalKm` at all. Any nonzero interval — negative included — yields an
ordinary point list, and a zero interval with at least two raw points raises
`ZeroDivisionError`; no `InvalidParameter` failure exists anywhere. -/
theorem interpolate_no_interval_validation
    (calculate_distance : GeoPoint → GeoPoint → ℚ)
    (route_response : RouteResponse) :
    (∀ interval_km : ℚ, interval_km ≠ 0 →
      ∃ pts, interpolate_route_points calculate_distance route_response interval_km =
        .ok pts) ∧
    (∀ route rest, route_response.routes = route :: rest →
      2 ≤ (rawPoints route.legs).length →
      interpolate_route_points calculate_distance route_response 0 =
        .error .zeroDivisionError) := by
  constructor
  · exact fun k hk => interpolate_ok_of_ne_zero calculate_distance route_response k hk
  · intro route rest hroutes hlen
    rcases route_response with ⟨routes⟩
    simp only at hroutes
    subst hroutes
    rw [interpolate_cons]
    rw [if_neg (by omega : ¬ (rawPoints route.legs).length < 2), if_pos rfl]

/-- C6 witness: the no-validation theorem applied at a concrete nonzero
interval. -/
theorem interpolate_no_interval_validation_witness :
    ∃ pts, interpolate_route_points cDist cResp 1 = .ok pts :=
  (interpolate_no_interval_validation cDist cResp).1 1 (by norm_num)

/-- C6 counterexample: with the negative interval `-1` the sampler happily
returns a point list (`num_intervals` collapses to 1 per segment) instead of
failing with any `InvalidParameter` error. -/
theorem interpolate_negative_interval_returns_points :
    interpolate_route_points cDist cResp (-1) =
      .ok [⟨1, 2, some 0⟩, ⟨3, 4, some 60⟩] := by
  norm_num [interpolate_route_points, rawPoints, extractPoint, List.flatMap,
    interpLoop, sampleSegment, numIntervals, truncInt, List.range_succ, cLeg,
    cResp, cDist]

/-! ### Lemmas about the dedup loop -/

lemma lookup_none_forall {β : Type} :
    ∀ (l : List (String × β)) (k : String), l.lookup k = none →
      ∀ p ∈ l, p.1 ≠ k := by
  intro l k
  induction l with
  | nil => intro _ p hp; simp at hp
  | cons q rest ih =>
    intro h p hp
    rcases q with ⟨a, b⟩
    rw [List.lookup_cons] at h
    by_cases hka : k = a
    · subst hka
      simp at h
    · have hbeq : (k == a) = false := beq_eq_false_iff_ne.mpr hka
      rw [hbeq] at h
      rcases List.mem_cons.mp hp with rfl | hp'
      · exact fun hc => hka hc.symm
      · exact ih h p hp'

/-- Invariant threaded through the dedup fold: stored keys record each
value's dedup key, keys are pairwise distinct, each stored value is the first
occurrence of its key in the processed prefix, and every processed record's
key is present. -/
structure DedupInv (seen : List Service) (acc : List (String × Service)) : Prop where
  keys : ∀ p ∈ acc, p.1 = dedupKey p.2
  nodup : acc.Pairwise fun p q => p.1 ≠ q.1
  firstW : ∀ p ∈ acc, seen.find? (fun t => dedupKey t == p.1) = some p.2
  covered : ∀ s ∈ seen, (acc.lookup (dedupKey s)).isSome

lemma dedupStep_eq (acc : List (String × Service)) (service : Service) :
    dedupStep acc service =
      if (acc.lookup (dedupKey service)).isNone then
        acc ++ [(dedupKey service, service)]
      else acc := by
  unfold dedupStep dedupKey
  dsimp only
  split_ifs <;> rfl

lemma dedupInv_step {seen : List Service} {acc : List (String × Service)}
    (inv : DedupInv seen acc) (s : Service) :
    DedupInv (seen ++ [s]) (dedupStep acc s) := by
  rw [dedupStep_eq]
  by_cases hl : (acc.lookup (dedupKey s)).isNone
  · rw [if_pos hl]
    have hlnone : acc.lookup (dedupKey s) = none := Option.isNone_iff_eq_none.mp hl
    have hnotin : ∀ p ∈ acc, p.1 ≠ dedupKey s :=
      lookup_none_forall acc (dedupKey s) hlnone
    have hseen_none : seen.find? (fun t => dedupKey t == dedupKey s) = none := by
      rw [List.find?_eq_none]
      intro t ht hbeq
      have hkey : dedupKey t = dedupKey s := by
        simpa using hbeq
      have hcov := inv.covered t ht
      rw [hkey, hlnone] at hcov
      simp at hcov
    constructor
    · intro p hp
      rcases List.mem_append.mp hp with h | h
      · exact inv.keys p h
      · simp only [List.mem_singleton] at h
        subst h
        rfl
    · rw [List.pairwise_append]
      refine ⟨inv.nodup, by simp, ?_⟩
      intro a ha b hb
      simp only [List.mem_singleton] at hb
      subst hb
      exact hnotin a ha
    · intro p hp
      rcases List.mem_append.mp hp with h | h
      · rw [List.find?_append, inv.firstW p h, Option.or_some]
      · simp only [List.mem_singleton] at h
        subst h
        rw [List.find?_append, hseen_none]
        simp
    · intro t ht
      rcases List.mem_append.mp ht with h | h
      · have := inv.covered t h
        rw [List.lookup_append]
        cases hv : acc.lookup (dedupKey t) with
        | none => rw [hv] at this; simp at this
        | some v => simp [hv]
      · simp only [List.mem_singleton] at h
        subst h
        rw [List.lookup_append, hlnone]
        simp [List.lookup]
  · rw [if_neg hl]
    constructor
    · exact inv.keys
    · exact inv.nodup
    · intro p hp
      rw [List.find?_append, inv.firstW p hp, Option.or_some]
    · intro t ht
      rcases List.mem_append.mp ht with h | h
      · exact inv.covered t h
      · simp only [List.mem_singleton] at h
        subst h
        simpa using hl

lemma dedupInv_foldl :
    ∀ (rest seen : List Service) (acc : List (String × Service)),
      DedupInv seen acc → DedupInv (seen ++ rest) (rest.foldl dedupStep acc) := by
  intro rest
  induction rest with
  | nil => intro seen acc inv; simpa using inv
  | cons s rest' ih =>
    intro seen acc inv
    have := ih (seen ++ [s]) (dedupStep acc s) (dedupInv_step inv s)
    simpa [List.append_assoc] using this

lemma uniqueServicesList_inv (all_services : List Service) :
    DedupInv all_services (all_services.foldl dedupStep []) := by
  have h0 : DedupInv [] [] := by
    constructor <;> simp
  simpa using dedupInv_foldl all_services [] [] h0

lemma uniqueServicesList_pairwise_key (all_services : List Service) :
    (uniqueServicesList all_services).Pairwise fun a b => dedupKey a ≠ dedupKey b := by
  have inv := uniqueServicesList_inv all_services
  unfold uniqueServicesList
  rw [List.pairwise_map]
  refine inv.nodup.imp_of_mem ?_
  intro p q hp hq hne
  rw [← inv.keys p hp, ← inv.keys q hq]
  exact hne

lemma uniqueServicesList_first_wins (all_services : List Service) (s : Service)
    (hs : s ∈ uniqueServicesList all_services) :
    all_services.find? (fun t => dedupKey t == dedupKey s) = some s := by
  have inv := uniqueServicesList_inv all_services
  unfold uniqueServicesList at hs
  rcases List.mem_map.mp hs with ⟨p, hp, rfl⟩
  have hk := inv.keys p hp
  have hfw := inv.firstW p hp
  rw [hk] at hfw
  exact hfw

lemma lookup_some_mem {β : Type} :
    ∀ (l : List (String × β)) (k : String) (v : β), l.lookup k = some v →
      (k, v) ∈ l := by
  intro l k v
  induction l with
  | nil => intro h; simp at h
  | cons q rest ih =>
    intro h
    rcases q with ⟨a, b⟩
    rw [List.lookup_cons] at h
    by_cases hka : k = a
    · subst hka
      simp only [beq_self_eq_true] at h
      cases h
      exact List.mem_cons_self _ _
    · have hbeq : (k == a) = false := beq_eq_false_iff_ne.mpr hka
      rw [hbeq] at h
      exact List.mem_cons_of_mem _ (ih h)

/-- Every gathered record is represented in the dedup output by some record
with the same key. -/
lemma uniqueServicesList_covers (all_services : List Service) (t : Service)
    (ht : t ∈ all_services) :
    ∃ s ∈ uniqueServicesList all_services, dedupKey s = dedupKey t := by
  have inv := uniqueServicesList_inv all_services
  have hcov := inv.covered t ht
  cases hv : (all_services.foldl dedupStep []).lookup (dedupKey t) with
  | none => rw [hv] at hcov; simp at hcov
  | some v =>
    have hmem := lookup_some_mem _ _ _ hv
    refine ⟨v, ?_, ?_⟩
    · unfold uniqueServicesList
      exact List.mem_map.mpr ⟨(dedupKey t, v), hmem, rfl⟩
    · exact (inv.keys _ hmem).symm

/-- C3: the service list returned by `find_services_along_route` never holds
two records with the same dedup key (the record's non-empty `id`, else its
6-decimal coordinate string); every returned record is exactly the first
record with its key among all services gathered along the route, in gathering
order — the first occurrence wins; and every gathered record has exactly one
representative with its key in the final list. -/
theorem find_services_dedup
    (calculate_distance : GeoPoint → GeoPoint → ℚ)
    (route_outcome : Except HttpError RouteResponse)
    (place_outcome : ℕ → Except HttpError (List Service))
    (search_radius_km interval_km : ℚ) (r : RouteServiceReport)
    (h : find_services_along_route calculate_distance route_outcome place_outcome
      search_radius_km interval_km = .ok r) :
    r.services_found.Pairwise (fun a b => dedupKey a ≠ dedupKey b) ∧
    (∀ s ∈ r.services_found,
      (allStampedServices calculate_distance r.route_points place_outcome).find?
        (fun t => dedupKey t == dedupKey s) = some s) ∧
    ∀ t ∈ allStampedServices calculate_distance r.route_points place_outcome,
      ∃ s ∈ r.services_found, dedupKey s = dedupKey t := by
  unfold find_services_along_route at h
  split at h
  · exact Except.noConfusion h
  · split at h
    · exact Except.noConfusion h
    · split at h
      · exact Except.noConfusion h
      · rename_i resp details hdet pts hinterp
        simp only [Except.ok.injEq] at h
        subst h
        dsimp only
        refine ⟨?_, ?_, ?_⟩
        · have hperm := List.perm_insertionSort (fun a b => sortKey a ≤ sortKey b)
            (uniqueServicesList
              (allStampedServices calculate_distance pts place_outcome))
          exact (List.Perm.pairwise_iff (fun hxy => Ne.symm hxy) hperm).mpr
            (uniqueServicesList_pairwise_key _)
        · intro s hs
          have hs' := (List.mem_insertionSort _).mp hs
          exact uniqueServicesList_first_wins _ s hs'
        · intro t ht
          rcases uniqueServicesList_covers _ t ht with ⟨s, hs, hks⟩
          exact ⟨s, (List.mem_insertionSort _).mpr hs, hks⟩

/-- C3 witness: the dedup theorem on a concrete route whose place provider
returns the same id-`"A"` record at both sample points; exactly one stamped
copy survives. -/
theorem find_services_dedup_witness :
    cReportA.services_found.Pairwise (fun a b => dedupKey a ≠ dedupKey b) ∧
    (∀ s ∈ cReportA.services_found,
      (allStampedServices cDist cReportA.route_points cPlaceA).find?
        (fun t => dedupKey t == dedupKey s) = some s) ∧
    ∀ t ∈ allStampedServices cDist cReportA.route_points cPlaceA,
      ∃ s ∈ cReportA.services_found, dedupKey s = dedupKey t :=
  find_services_dedup cDist (.ok cResp) cPlaceA 10 50 cReportA (by
    norm_num [find_services_along_route, get_route_details, interpolate_route_points,
      rawPoints, extractPoint, List.flatMap, interpLoop, sampleSegment, numIntervals,
      truncInt, List.range_succ, allStampedServices, stampLoop, search_nearby,
      stampService, uniqueServicesList, dedupStep, List.insertionSort,
      List.orderedInsert, categorize_services, sortKey, cResp, cLeg, cDist, cPlaceA,
      cServiceA, cStampedA, cReportA, SampledPoint.distD])

/-- Every record whose key maps to `Z` appears at most once in a list whose
dedup keys are pairwise distinct. -/
lemma countP_le_one_of_pairwise_key (Z : String) (p : Service → Bool)
    (hp : ∀ t, p t = true → dedupKey t = Z) :
    ∀ l : List Service, (l.Pairwise fun a b => dedupKey a ≠ dedupKey b) →
      l.countP p ≤ 1 := by
  intro l
  induction l with
  | nil => intro _; simp
  | cons a l' ih =>
    intro hpw
    rcases List.pairwise_cons.mp hpw with ⟨ha, hl'⟩
    rw [List.countP_cons]
    by_cases hpa : p a = true
    · have hzero : l'.countP p = 0 := by
        rw [List.countP_eq_zero]
        intro b hb hpb
        exact ha b hb (by rw [hp a hpa, hp b hpb])
      rw [hzero, if_pos hpa]
    · rw [if_neg hpa]
      simpa using ih hl'

/-- If the first record carrying key `Z` satisfies `p`, and `p` forces key
`Z`, then it is also the first record satisfying `p`. -/
lemma find_pred_of_find_key (Z : String) (p : Service → Bool)
    (hp : ∀ t, p t = true → dedupKey t = Z) :
    ∀ (l : List Service) (s : Service),
      l.find? (fun t => dedupKey t == Z) = some s → p s = true →
      l.find? p = some s := by
  intro l
  induction l with
  | nil => intro s h; simp at h
  | cons u rest ih =>
    intro s h hps
    by_cases hu : (dedupKey u == Z) = true
    · rw [@List.find?_cons_of_pos _ (fun t => dedupKey t == Z) u rest hu] at h
      have hus : u = s := by
        cases h
        rfl
      subst hus
      rw [List.find?_cons_of_pos _ hps]
    · rw [@List.find?_cons_of_neg _ (fun t => dedupKey t == Z) u rest hu] at h
      have hpu : ¬ p u = true := by
        intro hc
        exact hu (by rw [hp u hc]; exact beq_self_eq_true Z)
      rw [List.find?_cons_of_neg _ hpu]
      exact ih s h hps

/-- C10: every record with no id (`""`) and no location dict gets the same
fallback key `"0.000000,0.000000"`; consequently at most one such record
survives deduplication — the first one in gathering order — and all later
ones are dropped even when they describe distinct services. -/
theorem idless_locationless_dedup :
    (∀ s : Service, s.id = "" → s.location = none →
      dedupKey s = "0.000000,0.000000") ∧
    (∀ all_services : List Service,
      (uniqueServicesList all_services).countP
        (fun t => t.id == "" && t.location == none) ≤ 1) ∧
    (∀ (all_services : List Service) (s : Service),
      s ∈ uniqueServicesList all_services → s.id = "" → s.location = none →
      all_services.find? (fun t => t.id == "" && t.location == none) = some s) := by
  have hkey : ∀ s : Service, s.id = "" → s.location = none →
      dedupKey s = "0.000000,0.000000" := by
    intro s h1 h2
    unfold dedupKey coordKey
    rw [if_pos h1, h2]
    norm_num [format6, format6nn, roundHalfEven, padZeros]
    decide
  have hpred : ∀ t : Service, (t.id == "" && t.location == none) = true →
      dedupKey t = "0.000000,0.000000" := by
    intro t ht
    rw [Bool.and_eq_true] at ht
    exact hkey t (by simpa using ht.1) (by simpa using ht.2)
  refine ⟨hkey, ?_, ?_⟩
  · intro all_services
    exact countP_le_one_of_pairwise_key "0.000000,0.000000" _ hpred
      (uniqueServicesList all_services) (uniqueServicesList_pairwise_key all_services)
  · intro all_services s hs h1 h2
    have hfw := uniqueServicesList_first_wins all_services s hs
    rw [hkey s h1 h2] at hfw
    exact find_pred_of_find_key "0.000000,0.000000" _ hpred all_services s hfw
      (by simp [h1, h2])

/-- C10 witness: two distinct id-less, location-less services fed to the
dedup loop; the key formula and first-wins consequence at that input. -/
theorem idless_locationless_dedup_witness :
    dedupKey cServiceX = "0.000000,0.000000" ∧
    [cServiceX, cServiceY].find? (fun t => t.id == "" && t.location == none) =
      some cServiceX := by
  constructor
  · exact idless_locationless_dedup.1 cServiceX rfl rfl
  · refine idless_locationless_dedup.2.2 [cServiceX, cServiceY] cServiceX ?_ rfl rfl
    norm_num [uniqueServicesList, dedupStep, coordKey, format6, format6nn,
      roundHalfEven, padZeros, cServiceX, cServiceY]

/-- C7 amended: `find_services_along_route` fails when the route provider
fails — a `compute_route` HTTP error is re-raised unchanged, and a response
with no routes raises `ValueError` ("No routes found in response", the spec's
`RouteNotFoundError`) — but place-search errors are swallowed inside the
places client, which returns `[]`; with any routed response and a nonzero
interval the call therefore succeeds for **every** assignment of place-query
outcomes, including all-failing ones, returning a (possibly partial) service
list. -/
theorem find_services_error_policy
    (calculate_distance : GeoPoint → GeoPoint → ℚ)
    (place_outcome : ℕ → Except HttpError (List Service))
    (search_radius_km interval_km : ℚ) :
    (∀ e, find_services_along_route calculate_distance (.error e) place_outcome
      search_radius_km interval_km = .error (.httpError e)) ∧
    (∀ route_response : RouteResponse, route_response.routes = [] →
      find_services_along_route calculate_distance (.ok route_response)
        place_outcome search_radius_km interval_km = .error .valueErrorNoRoutes) ∧
    (∀ (route_response : RouteResponse) route rest,
      route_response.routes = route :: rest → interval_km ≠ 0 →
      ∃ r, find_services_along_route calculate_distance (.ok route_response)
        place_outcome search_radius_km interval_km = .ok r) := by
  refine ⟨fun e => rfl, ?_, ?_⟩
  · intro resp hresp
    rcases resp with ⟨routes⟩
    simp only at hresp
    subst hresp
    rfl
  · intro resp route rest hresp hk
    rcases resp with ⟨routes⟩
    simp only at hresp
    subst hresp
    rcases interpolate_ok_of_ne_zero calculate_distance ⟨route :: rest⟩ interval_km hk
      with ⟨pts, hpts⟩
    have hdet : get_route_details ⟨route :: rest⟩ =
        .ok ⟨route.distanceMeters.getD 0 / 1000, route.durationSeconds.getD 0 / 60⟩ := rfl
    unfold find_services_along_route
    dsimp only
    rw [hdet, hpts]
    exact ⟨_, rfl⟩

/-- C7 witness: the error-policy theorem applied at a concrete routed
response with every place query failing. -/
theorem find_services_error_policy_witness :
    ∃ r, find_services_along_route cDist (.ok cResp) cPlaceErr 10 50 = .ok r :=
  (find_services_error_policy cDist cPlaceErr 10 50).2.2 cResp
    ⟨[cLeg], some 454000, some 15000⟩ [] rfl (by norm_num)

/-- C7 counterexample: with **every** place-search query failing, the whole
call does not fail — it returns `.ok` with an empty service list, refuting
"fails as a whole with UpstreamUnavailable whenever any place-search query
errors" and "no partial service list is returned". -/
theorem find_services_ok_despite_place_errors :
    find_services_along_route cDist (.ok cResp) cPlaceErr 10 50 =
      .ok cReportEmpty := by
  norm_num [find_services_along_route, get_route_details, interpolate_route_points,
    rawPoints, extractPoint, List.flatMap, interpLoop, sampleSegment, numIntervals,
    truncInt, List.range_succ, allStampedServices, stampLoop, search_nearby,
    stampService, uniqueServicesList, dedupStep, List.insertionSort,
    List.orderedInsert, categorize_services, sortKey, cResp, cLeg, cDist, cPlaceErr,
    cReportEmpty, SampledPoint.distD]

/-- C8: for every point and radius, the emergency summary contains all four
fixed category keys, each bound to a (possibly empty) list, with each
reported count equal to that list's length. -/
theorem find_emergency_services_complete
    (o : ℕ → Except HttpError (List Service)) (latitude longitude radius_km : ℚ) :
    (∃ l, (find_emergency_services o latitude longitude radius_km).emergency_services.lookup
        "24h_gas_stations" = some l ∧
      (find_emergency_services o latitude longitude radius_km).summary.total_24h_stations =
        l.length) ∧
    (∃ l, (find_emergency_services o latitude longitude radius_km).emergency_services.lookup
        "repair_shops" = some l ∧
      (find_emergency_services o latitude longitude radius_km).summary.total_repair_shops =
        l.length) ∧
    (∃ l, (find_emergency_services o latitude longitude radius_km).emergency_services.lookup
        "hospitals" = some l ∧
      (find_emergency_services o latitude longitude radius_km).summary.total_hospitals =
        l.length) ∧
    (∃ l, (find_emergency_services o latitude longitude radius_km).emergency_services.lookup
        "police_stations" = some l ∧
      (find_emergency_services o latitude longitude radius_km).summary.total_police_stations =
        l.length) := by
  refine ⟨⟨_, ?_, rfl⟩, ⟨_, ?_, rfl⟩, ⟨_, ?_, rfl⟩, ⟨_, ?_, rfl⟩⟩ <;>
    simp [find_emergency_services, List.lookup]

/-! ### Lemmas about the stop planner -/

lemma truncInt_eq_floor {q : ℚ} (hq : 0 ≤ q) : truncInt q = ⌊q⌋ := if_pos hq

/-- C2 amended: whenever `plan_driver_stops` succeeds with a non-negative
route duration and a positive limit, `stops_needed` equals
`max(0, floor(totalDurationHours / drivingHoursLimit))`; when that count is
at least 1 the result carries a `planned_stops` list of exactly that length,
but when it is 0 the early return carries **no** stop list at all
(`planned_stops = none`, the key is absent), rather than an empty one. -/
theorem plan_driver_stops_count
    (calculate_distance : GeoPoint → GeoPoint → ℚ)
    (route_outcome : Except HttpError RouteResponse)
    (stop_outcome : ℕ → Except HttpError (List Service))
    (driving_hours_limit : ℚ) (hl : 0 < driving_hours_limit)
    (r : StopPlanResult)
    (h : plan_driver_stops calculate_distance route_outcome stop_outcome
      driving_hours_limit = .ok r)
    (hdur : 0 ≤ r.total_duration_minutes) :
    r.stops_needed =
      (max 0 ⌊r.total_duration_minutes / 60 / driving_hours_limit⌋).toNat ∧
    (r.stops_needed = 0 → r.planned_stops = none) ∧
    (0 < r.stops_needed → ∃ stops, r.planned_stops = some stops ∧
      stops.length = r.stops_needed) := by
  unfold plan_driver_stops at h
  split at h
  · exact Except.noConfusion h
  · split at h
    · exact Except.noConfusion h
    · dsimp only at h
      split at h
      · exact Except.noConfusion h
      · split at h
        · rename_i hns
          simp only [Except.ok.injEq] at h
          subst h
          dsimp only at hdur ⊢
          refine ⟨?_, fun _ => rfl, fun hc => absurd hc (by omega)⟩
          rw [← truncInt_eq_floor
            (div_nonneg (div_nonneg hdur (by norm_num)) hl.le)]
          exact hns.symm
        · rename_i hns
          split at h
          · exact Except.noConfusion h
          · split at h
            · exact Except.noConfusion h
            · split at h
              · exact Except.noConfusion h
              · simp only [Except.ok.injEq] at h
                subst h
                dsimp only at hdur ⊢
                refine ⟨?_, fun hc => absurd hc hns,
                  fun _ => ⟨_, rfl, by rw [List.length_map, List.length_range]⟩⟩
                rw [← truncInt_eq_floor
                  (div_nonneg (div_nonneg hdur (by norm_num)) hl.le)]

/-- C2 witness: the count theorem at the concrete 300-minute (5 h) route
with limit 4.5 h: `floor(5 / 4.5) = 1` stop, and the stop list has
length 1. -/
theorem plan_driver_stops_count_witness :
    cPlanResult.stops_needed =
      (max 0 ⌊cPlanResult.total_duration_minutes / 60 / (9 / 2 : ℚ)⌋).toNat ∧
    (cPlanResult.stops_needed = 0 → cPlanResult.planned_stops = none) ∧
    (0 < cPlanResult.stops_needed → ∃ stops, cPlanResult.planned_stops = some stops ∧
      stops.length = cPlanResult.stops_needed) :=
  plan_driver_stops_count cDist (.ok cResp300) cPlaceErr (9 / 2) (by norm_num)
    cPlanResult
    (by norm_num [plan_driver_stops, get_route_details, interpolate_route_points,
      rawPoints, extractPoint, List.flatMap, interpLoop, sampleSegment, numIntervals,
      truncInt, List.range_succ, argminBy, search_truck_friendly_places,
      SampledPoint.distD, cResp300, cLeg, cDist, cPlaceErr, cStop1, cPlanResult])
    (by norm_num [cPlanResult])

/-- C2 counterexample: at the claim's own boundary instance — 250-minute
route, 4.5-hour limit — `stops_needed` is 0 but the early-return dict has
**no** stop list whatsoever: `planned_stops` is absent (`none`), not the
empty list the claim asserts. -/
theorem plan_driver_stops_no_stop_list_at_250 :
    plan_driver_stops cDist (.ok cResp) cPlaceErr (9 / 2) =
      .ok ⟨0, none, 454, 250⟩ ∧
    (⟨0, none, 454, 250⟩ : StopPlanResult).planned_stops ≠ some [] := by
  constructor
  · norm_num [plan_driver_stops, get_route_details, truncInt, cResp, cLeg]
  · simp

/-- C5: every planned stop's `estimated_arrival_minutes` is computed from the
**planned** target distance `i * stopIntervalKm` — as
`(plannedDistanceKm / route.distanceKm) * route.durationMinutes` — not from
the snapped closest point's distance. -/
theorem estimated_arrival_from_planned
    (calculate_distance : GeoPoint → GeoPoint → ℚ)
    (route_outcome : Except HttpError RouteResponse)
    (stop_outcome : ℕ → Except HttpError (List Service))
    (driving_hours_limit : ℚ) (r : StopPlanResult) (stops : List StopPlan)
    (h : plan_driver_stops calculate_distance route_outcome stop_outcome
      driving_hours_limit = .ok r)
    (hs : r.planned_stops = some stops) :
    ∀ s ∈ stops,
      s.estimated_arrival_minutes =
        s.planned_distance_km / r.total_distance_km * r.total_duration_minutes ∧
      s.planned_distance_km =
        (s.stop_number : ℚ) *
          (r.total_distance_km / ((r.stops_needed : ℚ) + 1)) := by
  unfold plan_driver_stops at h
  split at h
  · exact Except.noConfusion h
  · split at h
    · exact Except.noConfusion h
    · dsimp only at h
      split at h
      · exact Except.noConfusion h
      · split at h
        · simp only [Except.ok.injEq] at h
          subst h
          simp at hs
        · split at h
          · exact Except.noConfusion h
          · split at h
            · exact Except.noConfusion h
            · split at h
              · exact Except.noConfusion h
              · simp only [Except.ok.injEq] at h
                subst h
                dsimp only at hs ⊢
                simp only [Option.some.injEq] at hs
                subst hs
                intro s hsmem
                rcases List.mem_map.mp hsmem with ⟨idx, _, rfl⟩
                exact ⟨rfl, rfl⟩

/-- C5 witness: the arrival-linearity theorem at the concrete 300-minute
route: the planned stop at 227 km snaps to the 60 km point yet reports the
planned-distance ETA `227/454*300 = 150` minutes. -/
theorem estimated_arrival_from_planned_witness :
    cStop1.estimated_arrival_minutes =
      cStop1.planned_distance_km / cPlanResult.total_distance_km *
        cPlanResult.total_duration_minutes ∧
    cStop1.planned_distance_km =
      (cStop1.stop_number : ℚ) *
        (cPlanResult.total_distance_km / ((cPlanResult.stops_needed : ℚ) + 1)) :=
  estimated_arrival_from_planned cDist (.ok cResp300) cPlaceErr (9 / 2)
    cPlanResult [cStop1]
    (by norm_num [plan_driver_stops, get_route_details, interpolate_route_points,
      rawPoints, extractPoint, List.flatMap, interpLoop, sampleSegment, numIntervals,
      truncInt, List.range_succ, argminBy, search_truck_friendly_places,
      SampledPoint.distD, cResp300, cLeg, cDist, cPlaceErr, cStop1, cPlanResult])
    (by norm_num [cPlanResult]) cStop1 (List.mem_singleton.mpr rfl)

end Fuel2go
